import Mathlib

/-!
Verification development for the sequential symbolic state-transition
simulator of the `unified_planning` fork (files
`unified_planning/engines/sequential_simulator.py`,
`unified_planning/model/effect.py`, `unified_planning/model/action.py`).

The expression/type layer is external to the simulator: grounded fluent
expressions are represented by natural-number identifiers, constant values
by an inductive `Value`, and condition/value expressions by small inductive
types whose evaluation mirrors the external `StateEvaluator` on the
fragment exercised by the simulator (constants and 0-ary fluent reads).
-/

namespace UPSim

/-- Identifier of a grounded fluent expression (the atomic state key). -/
abbrev FluentId := Nat

/-- Constant values produced by the external expression evaluator. -/
inductive Value where
  | VBool : Bool → Value
  | VInt : Int → Value
deriving DecidableEq, Repr

/-- Type of a fluent: boolean, or integer with optional lower/upper bounds
(mirrors `_IntType`/`_RealType` with `lower_bound`/`upper_bound`). -/
inductive FType where
  | bool : FType
  | int : Option Int → Option Int → FType
deriving DecidableEq, Repr

/-- The finalized problem data the simulator consumes: the typing of each
grounded fluent and its printable name (used in error messages). -/
structure Problem where
  fluentType : FluentId → FType
  fluentName : FluentId → String

/-- Modelled from the spec: `UPCOWState` (`unified_planning/model/state.py`,
not under `src/`) is an immutable mapping from grounded fluent expressions
to constant values; `lookup` reads a value and `make_child(updates)` returns
a state that reads from `updates` first, else from its parent. -/
abbrev State := FluentId → Value

/-- Condition expressions as evaluated by the external `StateEvaluator`:
the constant `TRUE` or a boolean fluent read. -/
inductive Cond where
  | ctrue : Cond
  | cfluent : FluentId → Cond
deriving DecidableEq, Repr

/-- Value expressions: a constant or a fluent read. -/
inductive Expr where
  | econst : Value → Expr
  | efluent : FluentId → Expr
deriving DecidableEq, Repr

/-- Mirrors `EffectKind` in `unified_planning/model/effect.py`. -/
inductive EffectKind where
  | ASSIGN : EffectKind
  | INCREASE : EffectKind
  | DECREASE : EffectKind
deriving DecidableEq, Repr

/-- Mirrors `Effect` in `unified_planning/model/effect.py`:
`(fluent, value, condition, kind)`. -/
structure Effect where
  fluent : FluentId
  value : Expr
  condition : Cond
  kind : EffectKind
deriving DecidableEq, Repr

/-- Mirrors `Effect.is_conditional`: the condition is not the constant `TRUE`. -/
def Effect.isConditional (e : Effect) : Bool := e.condition ≠ Cond.ctrue

/-- Mirrors `SimulatedEffect`: a list of grounded fluent expressions and a
callback returning one value per fluent (the `problem` argument and the
empty substitution passed in the source are fixed here). -/
structure SimulatedEffect where
  fluents : List FluentId
  function : State → List Value

/-- Mirrors `ProbabilisticEffect` as declared by
`ProbabilisticAction.add_probabilistic_effect` in
`unified_planning/model/action.py`: fluents plus a probability function
returning one sampled value per fluent. -/
structure ProbEffect where
  fluents : List FluentId
  function : State → List Value

/-- Mirrors `InstantaneousEvent` in `sequential_simulator.py`. -/
structure Event where
  conditions : List Cond
  effects : List Effect
  simulatedEffect : Option SimulatedEffect

/-- Evaluation of a condition expression by the external evaluator. -/
def evalCond (s : State) : Cond → Value
  | .ctrue => .VBool true
  | .cfluent f => s f

/-- Mirrors `FNode.is_true` / `is_bool_constant() and bool_constant_value()`. -/
def Value.isTrue : Value → Bool
  | .VBool b => b
  | .VInt _ => false

/-- Evaluation of a value expression by the external evaluator. -/
def evalExpr (s : State) : Expr → Value
  | .econst v => v
  | .efluent f => s f

/-- Integer reading of a constant value; Python booleans coerce to 0/1 in
arithmetic and comparisons with `Fraction`. -/
def intOf : Value → Int
  | .VInt i => i
  | .VBool b => if b then 1 else 0

/-- Mirrors `constant_value() + constant_value()` followed by `auto_promote`. -/
def valAdd (a b : Value) : Value := .VInt (intOf a + intOf b)

/-- Mirrors `constant_value() - constant_value()` followed by `auto_promote`. -/
def valSub (a b : Value) : Value := .VInt (intOf a - intOf b)

/-- Association-list view of a Python `dict`/`set` keyed by fluents. -/
def lookupP {α : Type} : List (FluentId × α) → FluentId → Option α
  | [], _ => none
  | (g, v) :: rest, f => if g = f then some v else lookupP rest f

/-- Mirrors `d[f] = v` on a Python `dict`. -/
def setP {α : Type} : List (FluentId × α) → FluentId → α → List (FluentId × α)
  | [], f, v => [(f, v)]
  | (g, w) :: rest, f, v =>
    if g = f then (f, v) :: rest else (g, w) :: setP rest f v

/-- Mirrors `s.add(f)` on a Python `set`. -/
def addF (s : List FluentId) (f : FluentId) : List FluentId :=
  if f ∈ s then s else f :: s

/-- Map from fluents to computed values (`updated_values` and
`new_bounded_types_values` in the source). -/
abbrev VMap := List (FluentId × Value)

/-- Modelled from the spec: `UPCOWState.make_child(updates)` returns a new
state reading `updates` first and delegating to the parent otherwise. -/
def makeChild (s : State) (updates : VMap) : State :=
  fun f => match lookupP updates f with
    | some v => v
    | none => s f

/-- The `UPConflictingEffectsException` variants raised by
`_evaluate_effect` and `_apply_unsafe`, one constructor per f-string. -/
inductive ConflictError where
  | twoAssignments : FluentId → ConflictError
  | oneAssignIncDec : FluentId → ConflictError
  | assignIncDec : FluentId → ConflictError
  | differentValues : FluentId → ConflictError
deriving DecidableEq, Repr

/-- The exception messages, exactly as formatted in the source. -/
def ConflictError.message (prob : Problem) : ConflictError → String
  | .twoAssignments f =>
    "The fluent " ++ prob.fluentName f ++
      " is modified by 2 different assignments in the same event."
  | .oneAssignIncDec f =>
    "The fluent " ++ prob.fluentName f ++
      " is modified by 1 assignments and an increase/decrease in the same event."
  | .assignIncDec f =>
    "The fluent " ++ prob.fluentName f ++
      " is modified by an assignment and an increase/decrease in the same event."
  | .differentValues f =>
    "The fluent " ++ prob.fluentName f ++
      " is modified with different values in the same event."

/-- Mirrors `SequentialSimulator._evaluate_effect`: evaluates one effect in
`s` against the running `updatedValues` map and `assignedFluent` set,
returning the affected fluent and its new value (or `none` for a skipped
conditional effect or an ignored boolean delete), together with the updated
`assignedFluent` set (the Python code mutates the set in place). -/
def evaluateEffect (prob : Problem) (e : Effect) (s : State)
    (updatedValues : VMap) (assignedFluent : List FluentId) :
    Except ConflictError (Option (FluentId × Value) × List FluentId) :=
  let fluent := e.fluent
  if !e.isConditional || (evalCond s e.condition).isTrue then
    let newValue := evalExpr s e.value
    match e.kind with
    | .ASSIGN =>
      match lookupP updatedValues fluent with
      | some oldValue =>
        if newValue ≠ oldValue then
          if prob.fluentType fluent ≠ FType.bool then
            .error (.twoAssignments fluent)
          else if !oldValue.isTrue then
            .ok (some (fluent, newValue), assignedFluent)
          else
            .ok (none, assignedFluent)
        else if fluent ∉ assignedFluent then
          .error (.oneAssignIncDec fluent)
        else
          .ok (some (fluent, newValue), addF assignedFluent fluent)
      | none =>
        .ok (some (fluent, newValue), addF assignedFluent fluent)
    | .INCREASE =>
      if fluent ∈ assignedFluent then
        .error (.assignIncDec fluent)
      else
        let fEval := (lookupP updatedValues fluent).getD (s fluent)
        .ok (some (fluent, valAdd fEval newValue), assignedFluent)
    | .DECREASE =>
      if fluent ∈ assignedFluent then
        .error (.assignIncDec fluent)
      else
        let fEval := (lookupP updatedValues fluent).getD (s fluent)
        .ok (some (fluent, valSub fEval newValue), assignedFluent)
  else
    .ok (none, assignedFluent)

/-- The `for effect in event.effects` loop of `_apply_unsafe`, threading
`updated_values` and `assigned_fluent`. -/
def effLoop (prob : Problem) (s : State) :
    List Effect → VMap → List FluentId →
    Except ConflictError (VMap × List FluentId)
  | [], m, asg => .ok (m, asg)
  | e :: rest, m, asg =>
    match evaluateEffect prob e s m asg with
    | .error er => .error er
    | .ok (some (f, v), asg') => effLoop prob s rest (setP m f v) asg'
    | .ok (none, asg') => effLoop prob s rest m asg'

/-- The `for f, v in zip(...)` merge loop of `_apply_unsafe` for the
simulated effect's returned values. -/
def simMerge (prob : Problem) :
    List (FluentId × Value) → VMap → List FluentId →
    Except ConflictError VMap
  | [], m, _ => .ok m
  | (f, v) :: rest, m, asg =>
    match lookupP m f with
    | some oldValue =>
      if f ∉ asg ∨ oldValue ≠ v then
        if prob.fluentType f ≠ FType.bool then
          .error (.differentValues f)
        else if !oldValue.isTrue then
          simMerge prob rest (setP m f v) asg
        else
          simMerge prob rest m asg
      else
        simMerge prob rest (setP m f v) asg
    | none =>
      simMerge prob rest (setP m f v) asg

/-- Mirrors `SequentialSimulator._apply_unsafe`, additionally reporting how
many times the simulated-effect callback was invoked during the call. -/
def applyUnsafeCnt (prob : Problem) (ev : Event) (s : State) :
    Except ConflictError State × Nat :=
  match effLoop prob s ev.effects [] [] with
  | .error er => (.error er, 0)
  | .ok (m, asg) =>
    match ev.simulatedEffect with
    | none => (.ok (makeChild s m), 0)
    | some se =>
      match simMerge prob (se.fluents.zip (se.function s)) m asg with
      | .error er => (.error er, 1)
      | .ok m' => (.ok (makeChild s m'), 1)

/-- Mirrors `SequentialSimulator._apply_unsafe` (result only). -/
def applyUnsafe (prob : Problem) (ev : Event) (s : State) :
    Except ConflictError State :=
  (applyUnsafeCnt prob ev s).1

/-- Entries of the unsatisfied-conditions list returned by
`_get_unsatisfied_conditions`: an event condition that evaluated false, or
an `em.LE(lower_bound, fluent)` / `em.LE(fluent, upper_bound)` expression
recording a bound violation. -/
inductive UCond where
  | unsatisfied : Cond → UCond
  | lbViolated : Int → FluentId → UCond
  | ubViolated : FluentId → Int → UCond
deriving DecidableEq, Repr

/-- The condition loop of `_get_unsatisfied_conditions` (a condition is
unsatisfied when it does not evaluate to the boolean constant true). -/
def condLoop (s : State) (early : Bool) : List Cond → List UCond
  | [] => []
  | c :: rest =>
    if (evalCond s c).isTrue then condLoop s early rest
    else .unsatisfied c :: (if early then [] else condLoop s early rest)

/-- Bounds declared by a fluent type (`lower_bound`, `upper_bound`). -/
def boundsOf : FType → Option Int × Option Int
  | .bool => (none, none)
  | .int lb ub => (lb, ub)

/-- Whether a type declares at least one bound. -/
def hasBounds (t : FType) : Bool :=
  ((boundsOf t).1 ≠ none || (boundsOf t).2 ≠ none : Bool)

/-- The bound-checking loop over `event.effects` in
`_get_unsatisfied_conditions`: for every effect on a bounded fluent the
effect value is pre-computed with `_evaluate_effect` (which can raise) and
checked against the declared bounds; `break` under early termination only
exits this loop. -/
def boundLoop (prob : Problem) (s : State) (early : Bool) :
    List Effect → VMap → List FluentId → Except ConflictError (List UCond)
  | [], _, _ => .ok []
  | e :: rest, m, asg =>
    let lb := (boundsOf (prob.fluentType e.fluent)).1
    let ub := (boundsOf (prob.fluentType e.fluent)).2
    if lb ≠ none ∨ ub ≠ none then
      match evaluateEffect prob e s m asg with
      | .error er => .error er
      | .ok (none, asg') => boundLoop prob s early rest m asg'
      | .ok (some (f, v), asg') =>
        let lbList := match lb with
          | some l => if intOf v < l then [UCond.lbViolated l f] else []
          | none => []
        if early && !lbList.isEmpty then .ok lbList
        else
          let ubList := match ub with
            | some u => if u < intOf v then [UCond.ubViolated f u] else []
            | none => []
          if early && !ubList.isEmpty then .ok (lbList ++ ubList)
          else
            match boundLoop prob s early rest (setP m f v) asg' with
            | .error er => .error er
            | .ok l => .ok (lbList ++ ubList ++ l)
    else boundLoop prob s early rest m asg

/-- The bound-checking loop over the simulated effect's returned values in
`_get_unsatisfied_conditions`. -/
def simBoundLoop (prob : Problem) (s : State) (early : Bool) :
    List (FluentId × Value) → List UCond
  | [] => []
  | (f, v) :: rest =>
    let lb := (boundsOf (prob.fluentType f)).1
    let ub := (boundsOf (prob.fluentType f)).2
    if lb ≠ none ∨ ub ≠ none then
      let lbList := match lb with
        | some l => if intOf v < l then [UCond.lbViolated l f] else []
        | none => []
      if early && !lbList.isEmpty then lbList
      else
        let ubList := match ub with
          | some u => if u < intOf v then [UCond.ubViolated f u] else []
          | none => []
        if early && !ubList.isEmpty then lbList ++ ubList
        else lbList ++ ubList ++ simBoundLoop prob s early rest
    else simBoundLoop prob s early rest

/-- Mirrors `SequentialSimulator._get_unsatisfied_conditions`, additionally
reporting how many times the simulated-effect callback was invoked: the
callback is called (once, by `zip`) exactly when the event has a simulated
effect and some of its fluents has a bounded numeric type (`to_check`). -/
def getUnsatisfiedConditionsCnt (prob : Problem) (ev : Event) (s : State)
    (early : Bool) : Except ConflictError (List UCond) × Nat :=
  let cs := condLoop s early ev.conditions
  match boundLoop prob s early ev.effects [] [] with
  | .error er => (.error er, 0)
  | .ok bs =>
    match ev.simulatedEffect with
    | none => (.ok (cs ++ bs), 0)
    | some se =>
      if se.fluents.any (fun f => hasBounds (prob.fluentType f)) then
        (.ok (cs ++ bs ++
          simBoundLoop prob s early (se.fluents.zip (se.function s))), 1)
      else (.ok (cs ++ bs), 0)

/-- Mirrors `SequentialSimulator._get_unsatisfied_conditions` (result only). -/
def getUnsatisfiedConditions (prob : Problem) (ev : Event) (s : State)
    (early : Bool) : Except ConflictError (List UCond) :=
  (getUnsatisfiedConditionsCnt prob ev s early).1

/-- Modelled from the spec: `SimulatorMixin.is_applicable`
(`unified_planning/engines/mixins/simulator.py`, not under `src/`) — an
event is applicable when `get_unsatisfied_conditions` with early
termination returns the empty list (spec section 4.7). -/
def isApplicable (prob : Problem) (ev : Event) (s : State) :
    Except ConflictError Bool :=
  (getUnsatisfiedConditions prob ev s true).map List.isEmpty

/-- Mirrors `SequentialSimulator._apply`, threading the callback-invocation
count: if the event is not applicable return `none`, else the result of
`apply_unsafe`. -/
def applyCnt (prob : Problem) (ev : Event) (s : State) :
    Except ConflictError (Option State) × Nat :=
  match getUnsatisfiedConditionsCnt prob ev s true with
  | (.error er, n) => (.error er, n)
  | (.ok uc, n) =>
    if uc.isEmpty then
      match applyUnsafeCnt prob ev s with
      | (.error er, n2) => (.error er, n + n2)
      | (.ok st, n2) => (.ok (some st), n + n2)
    else (.ok none, n)

/-- Mirrors `SequentialSimulator._apply` (result only). -/
def apply (prob : Problem) (ev : Event) (s : State) :
    Except ConflictError (Option State) :=
  (applyCnt prob ev s).1

/-- Mirrors `Expr.is_constant` on the fragment used by the builder. -/
def Expr.isConstant : Expr → Bool
  | .econst _ => true
  | .efluent _ => false

/-- Mirrors `FNode.constant_value` (only called under an `is_constant`
guard in the source; the non-constant case is unreachable there). -/
def Expr.constantValue : Expr → Value
  | .econst v => v
  | .efluent _ => .VInt 0

/-- Errors raised by the action builders: `UPTypeError`,
`UPUsageError`, and the `UPConflictingEffectsException` variants of
`check_conflicting_effects` (one constructor per raise site). -/
inductive ConstrError where
  | typeError : String → ConstrError
  | assignVsIncDec : ConstrError
  | assignVsSim : ConstrError
  | assignVsAssigned : ConstrError
  | incDecVsAssigned : ConstrError
  | incDecVsSim : ConstrError
deriving DecidableEq, Repr

/-- Mirrors the Python membership test
`simulated_effect is not None and effect.fluent in simulated_effect.fluents`. -/
def inSimFluents (se : Option SimulatedEffect) (f : FluentId) : Bool :=
  match se with
  | some se => decide (f ∈ se.fluents)
  | none => false

/-- Mirrors `check_conflicting_effects` in
`unified_planning/model/effect.py` with `timing = None`: checks the effect
against the bookkeeping of effects already added, returning the updated
`(fluents_assigned, fluents_inc_dec)` pair (the Python code mutates them in
place). The whole check is guarded by the effect being unconditional and
its fluent non-boolean. -/
def check_conflicting_effects (prob : Problem) (e : Effect)
    (simulatedEffect : Option SimulatedEffect)
    (fluentsAssigned : List (FluentId × Expr))
    (fluentsIncDec : List FluentId) :
    Except ConstrError (List (FluentId × Expr) × List FluentId) :=
  let assignedValue := lookupP fluentsAssigned e.fluent
  if !e.isConditional && prob.fluentType e.fluent ≠ FType.bool then
    match e.kind with
    | .ASSIGN =>
      if e.fluent ∈ fluentsIncDec then
        .error .assignVsIncDec
      else if inSimFluents simulatedEffect e.fluent then
        .error .assignVsSim
      else
        match assignedValue with
        | some av =>
          if av ≠ e.value ∧
              ¬(av.isConstant ∧ e.value.isConstant ∧
                av.constantValue = e.value.constantValue) then
            .error .assignVsAssigned
          else
            .ok (fluentsAssigned, fluentsIncDec)
        | none =>
          .ok (setP fluentsAssigned e.fluent e.value, fluentsIncDec)
    | _ =>
      if (lookupP fluentsAssigned e.fluent).isSome then
        .error .incDecVsAssigned
      else
        let fid := addF fluentsIncDec e.fluent
        if inSimFluents simulatedEffect e.fluent then
          .error .incDecVsSim
        else
          .ok (fluentsAssigned, fid)
  else
    .ok (fluentsAssigned, fluentsIncDec)

/-- The builder state of `InstantaneousAction` (parameters are already
resolved; grounded fluents stand for fluent expressions). -/
structure InstantaneousAction where
  preconditions : List Cond
  effects : List Effect
  simulatedEffect : Option SimulatedEffect
  fluentsAssigned : List (FluentId × Expr)
  fluentsIncDec : List FluentId

/-- A freshly constructed `InstantaneousAction`. -/
def emptyAction : InstantaneousAction :=
  { preconditions := [], effects := [], simulatedEffect := none,
    fluentsAssigned := [], fluentsIncDec := [] }

/-- Mirrors `InstantaneousAction._add_effect_instance`: runs
`check_conflicting_effects` and only then appends the effect. -/
def addEffectInstance (prob : Problem) (a : InstantaneousAction)
    (e : Effect) : Except ConstrError InstantaneousAction :=
  match check_conflicting_effects prob e a.simulatedEffect
      a.fluentsAssigned a.fluentsIncDec with
  | .error er => .error er
  | .ok (fa, fid) =>
    .ok { a with effects := a.effects ++ [e],
                 fluentsAssigned := fa, fluentsIncDec := fid }

/-- Modelled from the spec: the external expression/type layer's typing of
value expressions (spec section 2, "Expression/Type layer (external)"): a
boolean constant is boolean, an integer constant `i` has the singleton
bounded type `int[i, i]`, and a fluent read has the fluent's declared type. -/
def exprType (prob : Problem) : Expr → FType
  | .econst (.VBool _) => .bool
  | .econst (.VInt i) => .int (some i) (some i)
  | .efluent f => prob.fluentType f

/-- Modelled from the spec: `Type.is_compatible`
(`unified_planning/model/types.py`, not under `src/`) — a value type is
compatible with a fluent type when it is a subset of it: booleans with
booleans, and an integer interval contained in the fluent's interval. -/
def isCompatible : FType → FType → Bool
  | .bool, .bool => true
  | .int lb ub, .int lb2 ub2 =>
    (match lb, lb2 with
     | none, _ => true
     | some l, some l2 => decide (l ≤ l2)
     | some _, none => false) &&
    (match ub, ub2 with
     | none, _ => true
     | some u, some u2 => decide (u2 ≤ u)
     | some _, none => false)
  | _, _ => false

/-- Mirrors `InstantaneousAction.add_effect`: type-checks the value against
the fluent's type and delegates to `_add_effect_instance` (the condition is
boolean by construction of `Cond`). -/
def add_effect (prob : Problem) (a : InstantaneousAction) (fluent : FluentId)
    (value : Expr) (condition : Cond) : Except ConstrError InstantaneousAction :=
  if !isCompatible (prob.fluentType fluent) (exprType prob value) then
    .error (.typeError "InstantaneousAction effect has an incompatible value type.")
  else
    addEffectInstance prob a ⟨fluent, value, condition, .ASSIGN⟩

/-- Mirrors `InstantaneousAction.add_increase_effect`. -/
def add_increase_effect (prob : Problem) (a : InstantaneousAction)
    (fluent : FluentId) (value : Expr) (condition : Cond) :
    Except ConstrError InstantaneousAction :=
  if !isCompatible (prob.fluentType fluent) (exprType prob value) then
    .error (.typeError "InstantaneousAction effect has an incompatible value type.")
  else if (match prob.fluentType fluent with
           | .int _ _ => false
           | _ => true) then
    .error (.typeError "Increase effects can be created only on numeric types!")
  else
    addEffectInstance prob a ⟨fluent, value, condition, .INCREASE⟩

/-- Mirrors `InstantaneousAction.add_decrease_effect`. -/
def add_decrease_effect (prob : Problem) (a : InstantaneousAction)
    (fluent : FluentId) (value : Expr) (condition : Cond) :
    Except ConstrError InstantaneousAction :=
  if !isCompatible (prob.fluentType fluent) (exprType prob value) then
    .error (.typeError "InstantaneousAction effect has an incompatible value type.")
  else if (match prob.fluentType fluent with
           | .int _ _ => false
           | _ => true) then
    .error (.typeError "Decrease effects can be created only on numeric types!")
  else
    addEffectInstance prob a ⟨fluent, value, condition, .DECREASE⟩

/-- Identifier of an (ungrounded) action of the problem. -/
abbrev ActionId := Nat

/-- A grounded action as handed back by the grounder: for an
`InstantaneousAction` the preconditions, effects and optional simulated
effect; a grounded `ProbabilisticAction` (a subclass) additionally carries
its probabilistic effects. -/
structure GroundedAction where
  preconditions : List Cond
  effects : List Effect
  simulatedEffect : Option SimulatedEffect
  probabilisticEffects : List ProbEffect

/-- The fixed data of a `SequentialSimulator` instance: the problem's
action set and the external grounder's (pure) grounding map
`ground_action(action, params) -> Optional[Action]`. -/
structure Simulator where
  actions : List ActionId
  ground : ActionId → List Value → Option GroundedAction

/-- The mutable caches of a `SequentialSimulator` instance: the event cache
`self._events` keyed by `(original_action, params)`, the set of keys the
`GrounderHelper` has already grounded, and a counter of how many grounding
computations were performed. -/
structure SimCache where
  events : List ((ActionId × List Value) × List Event)
  groundedKeys : List (ActionId × List Value)
  groundCalls : Nat

/-- An empty cache, as right after `SequentialSimulator.__init__`. -/
def emptyCache : SimCache := ⟨[], [], 0⟩

/-- Lookup in a cache keyed by `(action, params)`. -/
def lookupK {α : Type} : List ((ActionId × List Value) × α) →
    ActionId × List Value → Option α
  | [], _ => none
  | (k, v) :: rest, key => if k = key then some v else lookupK rest key

/-- Modelled from the spec: `GrounderHelper.ground_action`
(`unified_planning/engines/compilers`, not under `src/`) memoizes grounding
results per `(action, parameters)` key, so the grounding computation runs
at most once per key (spec sections 4.6 and 6). -/
def groundAction (sim : Simulator) (c : SimCache) (a : ActionId)
    (p : List Value) : Option GroundedAction × SimCache :=
  if (a, p) ∈ c.groundedKeys then (sim.ground a p, c)
  else
    (sim.ground a p,
     { c with groundedKeys := (a, p) :: c.groundedKeys,
              groundCalls := c.groundCalls + 1 })

/-- Mirrors `SequentialSimulator._get_or_create_events` for an
`InstantaneousAction` (which includes `ProbabilisticAction`): on a cache
miss, a `None` grounding yields the empty event list, otherwise one
`InstantaneousEvent` built from the grounded action's preconditions,
effects and simulated effect (its probabilistic effects are not read). -/
def getOrCreateEvents (c : SimCache) (a : ActionId) (p : List Value)
    (groundedAction : Option GroundedAction) : List Event × SimCache :=
  match lookupK c.events (a, p) with
  | some eventList => (eventList, c)
  | none =>
    let eventList := match groundedAction with
      | none => []
      | some ga => [⟨ga.preconditions, ga.effects, ga.simulatedEffect⟩]
    (eventList, { c with events := ((a, p), eventList) :: c.events })

/-- The `UPUsageError` raised by `_get_events`. -/
inductive UsageError where
  | actionNotInProblem : UsageError
deriving DecidableEq, Repr

/-- Mirrors `SequentialSimulator._get_events`: sanity-checks that the
action belongs to the problem, grounds it and retrieves or creates the
cached event list. -/
def getEvents (sim : Simulator) (c : SimCache) (a : ActionId)
    (p : List Value) : Except UsageError (List Event × SimCache) :=
  if a ∉ sim.actions then .error .actionNotInProblem
  else
    let gc := groundAction sim c a p
    .ok (getOrCreateEvents gc.2 a p gc.1)

/-! ### Concrete instances used by the claims -/

/-- Problem with a single boolean fluent `bf` (id 0). -/
def probC1 : Problem := ⟨fun _ => FType.bool, fun _ => "bf"⟩

/-- Initial state with `bf = False`. -/
def sC1 : State := fun _ => Value.VBool false

/-- Event with unconditional effects `bf := True` then `bf := False`
(mirrors `test_add_after_delete`). -/
def evC1 : Event :=
  ⟨[], [⟨0, .econst (.VBool true), .ctrue, .ASSIGN⟩,
        ⟨0, .econst (.VBool false), .ctrue, .ASSIGN⟩], none⟩

/-- Problem of `test_exceptions`: boolean fluents `condition1..3`
(ids 0, 1, 2) and the unbounded integer fluent `fluent` (id 3). -/
def probC2 : Problem :=
  ⟨fun f => if f = 3 then FType.int none none else FType.bool,
   fun f => if f = 3 then "fluent" else "condition" ++ toString f⟩

/-- The `test_int` action's event:
`(condition1 -> fluent := 5)`, `(condition2 -> fluent := 6)`,
`(condition3 -> fluent += 5)`. -/
def testIntEvent : Event :=
  ⟨[], [⟨3, .econst (.VInt 5), .cfluent 0, .ASSIGN⟩,
        ⟨3, .econst (.VInt 6), .cfluent 1, .ASSIGN⟩,
        ⟨3, .econst (.VInt 5), .cfluent 2, .INCREASE⟩], none⟩

/-- State with all three conditions true and `fluent = 0`. -/
def sAll : State := fun f => if f = 3 then Value.VInt 0 else Value.VBool true

/-- State with only `condition2` false. -/
def sNo2 : State :=
  fun f => if f = 3 then Value.VInt 0
           else if f = 1 then Value.VBool false else Value.VBool true

/-- State with `condition2` and `condition3` false. -/
def sOnly1 : State :=
  fun f => if f = 3 then Value.VInt 0
           else if f = 0 then Value.VBool true else Value.VBool false

/-! ### Claim theorems -/

/-- C4: for every event and state, `apply` equals `apply_unsafe` when
`is_applicable` is true and returns the no-state sentinel `none` when it is
false: `apply = if is_applicable then apply_unsafe else none`. -/
theorem apply_eq_isApplicable_applyUnsafe (prob : Problem) (ev : Event) (s : State) :
    apply prob ev s =
      (isApplicable prob ev s).bind
        (fun b => if b then (applyUnsafe prob ev s).map some else .ok none) := by
  unfold apply applyCnt isApplicable getUnsatisfiedConditions applyUnsafe
  rcases h1 : getUnsatisfiedConditionsCnt prob ev s true with ⟨r, n⟩
  rcases r with er | uc
  · simp [Except.map, Except.bind]
  · by_cases hu : uc.isEmpty
    · rcases h2 : applyUnsafeCnt prob ev s with ⟨r2, n2⟩
      rcases r2 with er2 | st2 <;>
        simp [hu, h2, Except.map, Except.bind]
    · simp [hu, Except.map, Except.bind]

/-- C1: two ASSIGN effects writing different constant boolean values to the
same boolean fluent resolve to `True` under add-after-delete, whatever the
write order; in particular `bf := True` then `bf := False` applied to a
state with `bf = False` yields `bf = True`; on a non-boolean fluent two
different constant assignments raise a conflict error instead. -/
theorem addAfterDelete_resolution
    (prob : Problem) (f : FluentId) (s : State) (conds : List Cond)
    (b1 b2 : Bool)
    (probN : Problem) (fN : FluentId) (sN : State) (condsN : List Cond)
    (v1 v2 : Value)
    (hb : prob.fluentType f = FType.bool) (hne : b1 ≠ b2)
    (hNb : probN.fluentType fN ≠ FType.bool) (hvne : v1 ≠ v2) :
    applyUnsafe prob
        ⟨conds, [⟨f, .econst (.VBool b1), .ctrue, .ASSIGN⟩,
                 ⟨f, .econst (.VBool b2), .ctrue, .ASSIGN⟩], none⟩ s
      = .ok (makeChild s [(f, Value.VBool true)]) ∧
    applyUnsafe probN
        ⟨condsN, [⟨fN, .econst v1, .ctrue, .ASSIGN⟩,
                  ⟨fN, .econst v2, .ctrue, .ASSIGN⟩], none⟩ sN
      = .error (.twoAssignments fN) ∧
    (apply probC1 evC1 sC1).map (Option.map (fun st => st 0))
      = .ok (some (Value.VBool true)) := by
  have hvne2 : v2 ≠ v1 := Ne.symm hvne
  refine ⟨?_, ?_, ?_⟩
  · cases b1 <;> cases b2 <;>
      simp_all [applyUnsafe, applyUnsafeCnt, effLoop, evaluateEffect,
        Effect.isConditional, evalCond, evalExpr, Value.isTrue,
        lookupP, setP, addF, hb]
  · simp [applyUnsafe, applyUnsafeCnt, effLoop, evaluateEffect,
      Effect.isConditional, evalExpr, lookupP, setP, addF, hNb, hvne2]
  · rfl

/-- C9: on the `test_exceptions` event, `is_applicable` returns `True`
(the target fluent is unbounded, so the applicability check never
pre-computes its effect values) and yet `apply` raises the
conflicting-effects error for two different assignments. -/
theorem applicable_but_apply_conflicts :
    isApplicable probC2 testIntEvent sAll = .ok true ∧
    apply probC2 testIntEvent sAll = .error (.twoAssignments 3) := by
  exact ⟨rfl, rfl⟩

/-- C10: the construction-time conflict check is a no-op on a conditional
effect or on an effect whose fluent is boolean: it neither raises nor
records anything in the assigned/inc-dec bookkeeping. -/
theorem check_conflicting_noop_conditional_or_bool
    (prob : Problem) (e : Effect) (se : Option SimulatedEffect)
    (fa : List (FluentId × Expr)) (fid : List FluentId)
    (h : e.isConditional = true ∨ prob.fluentType e.fluent = FType.bool) :
    check_conflicting_effects prob e se fa fid = .ok (fa, fid) := by
  unfold check_conflicting_effects
  rcases h with h | h <;> simp [h]

/-- Witness for C10: a conditional effect on the boolean fluent of
`probC1` passes the construction-time check without changing the
bookkeeping. -/
theorem check_conflicting_noop_conditional_or_bool_witness :
    ((⟨0, .econst (.VBool true), .cfluent 1, .ASSIGN⟩ : Effect).isConditional = true ∨
        probC1.fluentType 0 = FType.bool) ∧
    check_conflicting_effects probC1
        ⟨0, .econst (.VBool true), .cfluent 1, .ASSIGN⟩ none [] [] = .ok ([], []) :=
  ⟨Or.inl rfl,
   check_conflicting_noop_conditional_or_bool probC1
     ⟨0, .econst (.VBool true), .cfluent 1, .ASSIGN⟩ none [] [] (Or.inl rfl)⟩

/-- Witness for C1: instantiation at the boolean fluent of `probC1` with
`True`/`False` writes, and at an integer fluent for the conflict branch. -/
theorem addAfterDelete_resolution_witness :
    probC1.fluentType 0 = FType.bool ∧ probC2.fluentType 3 ≠ FType.bool ∧
    (applyUnsafe probC1
        ⟨[], [⟨0, .econst (.VBool true), .ctrue, .ASSIGN⟩,
              ⟨0, .econst (.VBool false), .ctrue, .ASSIGN⟩], none⟩ sC1
      = .ok (makeChild sC1 [(0, Value.VBool true)]) ∧
    applyUnsafe probC2
        ⟨[], [⟨3, .econst (.VInt 5), .ctrue, .ASSIGN⟩,
              ⟨3, .econst (.VInt 6), .ctrue, .ASSIGN⟩], none⟩ sAll
      = .error (.twoAssignments 3) ∧
    (apply probC1 evC1 sC1).map (Option.map (fun st => st 0))
      = .ok (some (Value.VBool true))) :=
  ⟨rfl, by decide,
   addAfterDelete_resolution probC1 0 sC1 [] true false probC2 3 sAll []
     (.VInt 5) (.VInt 6) rfl (by decide) (by decide) (by decide)⟩

/-- An unconditional increase (`isInc = true`) or decrease effect on `f`
by the integer constant `c`. -/
def incDecEffect (f : FluentId) : Bool × Int → Effect
  | (isInc, c) =>
    ⟨f, .econst (.VInt c), .ctrue, if isInc then .INCREASE else .DECREASE⟩

/-- Left fold of `+`/`−` over increase/decrease operations, as the effects
loop performs it against the fluent's current value. -/
def accum (base : Int) : List (Bool × Int) → Int
  | [] => base
  | (isInc, c) :: rest => accum (if isInc then base + c else base - c) rest

theorem effLoop_incDec (prob : Problem) (s : State) (f : FluentId)
    (ops : List (Bool × Int)) (acc : Int) :
    effLoop prob s (ops.map (incDecEffect f)) [(f, Value.VInt acc)] []
      = .ok ([(f, Value.VInt (accum acc ops))], []) := by
  induction ops generalizing acc with
  | nil => simp [effLoop, accum]
  | cons op rest ih =>
    obtain ⟨isInc, c⟩ := op
    cases isInc <;>
      simp [effLoop, evaluateEffect, incDecEffect, Effect.isConditional,
        evalExpr, lookupP, setP, accum, valAdd, valSub, intOf, ih]

theorem isEmpty_append_cons {α : Type} (l : List α) (x : α) (t : List α) :
    (l ++ x :: t).isEmpty = false := by
  cases l <;> rfl

theorem applyNone_of_unsat (prob : Problem) (ev : Event) (s : State)
    (uc : List UCond) (n : Nat)
    (h : getUnsatisfiedConditionsCnt prob ev s true = (.ok uc, n))
    (hne : uc.isEmpty = false) :
    isApplicable prob ev s = .ok false ∧ apply prob ev s = .ok none := by
  unfold isApplicable getUnsatisfiedConditions apply applyCnt
  rw [h]
  simp [Except.map, hne]

/-- C2: the `test_int` event raises the two-assignments conflict (message
mentioning "2 different assignments") when all conditions hold, the
assignment-vs-increase conflict when only `condition2` is false, and is
applicable with resulting `fluent = 5` when `condition2` and `condition3`
are false; in general an INCREASE/DECREASE effect on a fluent already
assigned in the same event is a conflict error, and multiple
INCREASE/DECREASE effects on the same fluent accumulate by folding `+`/`−`
over the fluent's current state value. -/
theorem conflictDetection_integerAssignIncrease
    (prob : Problem) (s : State) (conds : List Cond) (f : FluentId)
    (cv dv : Expr) (kd : EffectKind)
    (prob2 : Problem) (s2 : State) (conds2 : List Cond) (f2 : FluentId)
    (ops : List (Bool × Int))
    (hk : kd ≠ .ASSIGN) (hops : ops ≠ []) :
    apply probC2 testIntEvent sAll = .error (.twoAssignments 3) ∧
    ConflictError.message probC2 (.twoAssignments 3)
      = "The fluent fluent is modified by 2 different assignments in the same event." ∧
    apply probC2 testIntEvent sNo2 = .error (.assignIncDec 3) ∧
    ConflictError.message probC2 (.assignIncDec 3)
      = "The fluent fluent is modified by an assignment and an increase/decrease in the same event." ∧
    isApplicable probC2 testIntEvent sOnly1 = .ok true ∧
    (apply probC2 testIntEvent sOnly1).map (Option.map (fun st => st 3))
      = .ok (some (Value.VInt 5)) ∧
    applyUnsafe prob
        ⟨conds, [⟨f, cv, .ctrue, .ASSIGN⟩, ⟨f, dv, .ctrue, kd⟩], none⟩ s
      = .error (.assignIncDec f) ∧
    applyUnsafe prob2 ⟨conds2, ops.map (incDecEffect f2), none⟩ s2
      = .ok (makeChild s2 [(f2, Value.VInt (accum (intOf (s2 f2)) ops))]) := by
  refine ⟨rfl, rfl, rfl, rfl, rfl, rfl, ?_, ?_⟩
  · cases kd
    · exact absurd rfl hk
    · simp [applyUnsafe, applyUnsafeCnt, effLoop, evaluateEffect,
        Effect.isConditional, evalExpr, lookupP, setP, addF]
    · simp [applyUnsafe, applyUnsafeCnt, effLoop, evaluateEffect,
        Effect.isConditional, evalExpr, lookupP, setP, addF]
  · cases ops with
    | nil => exact absurd rfl hops
    | cons op rest =>
      obtain ⟨isInc, c⟩ := op
      cases isInc <;>
        simp [applyUnsafe, applyUnsafeCnt, effLoop, evaluateEffect,
          incDecEffect, Effect.isConditional, evalExpr, lookupP, setP,
          accum, valAdd, valSub, intOf, effLoop_incDec]

/-- Witness for C2: the general conjuncts instantiated with an
assign-then-increase pair and the operation list `[+2, -1]` on `fluent`. -/
theorem conflictDetection_integerAssignIncrease_witness :
    (EffectKind.INCREASE ≠ EffectKind.ASSIGN) ∧
    (([((true : Bool), (2 : Int)), (false, 1)] : List (Bool × Int)) ≠ []) ∧
    (applyUnsafe probC2
        ⟨[], [⟨3, .econst (.VInt 5), .ctrue, .ASSIGN⟩,
              ⟨3, .econst (.VInt 1), .ctrue, .INCREASE⟩], none⟩ sAll
      = .error (.assignIncDec 3) ∧
    applyUnsafe probC2
        ⟨[], ([((true : Bool), (2 : Int)), (false, 1)]).map (incDecEffect 3), none⟩ sAll
      = .ok (makeChild sAll
          [(3, Value.VInt (accum (intOf (sAll 3)) [(true, 2), (false, 1)]))])) := by
  have h := conflictDetection_integerAssignIncrease probC2 sAll [] 3
    (.econst (.VInt 5)) (.econst (.VInt 1)) .INCREASE
    probC2 sAll [] 3 [(true, 2), (false, 1)] (by decide) (by decide)
  exact ⟨by decide, by decide, h.2.2.2.2.2.2.1, h.2.2.2.2.2.2.2⟩

/-- Problem with a single fluent `counter` (id 0) of type `int[0, +inf)`. -/
def probC3 : Problem := ⟨fun _ => FType.int (some 0) none, fun _ => "counter"⟩

/-- Event of the `decrease` action: `counter -= 1`, no conditions. -/
def decEv : Event := ⟨[], [⟨0, .econst (.VInt 1), .ctrue, .DECREASE⟩], none⟩

/-- State with `counter = 1`. -/
def sCnt1 : State := fun _ => Value.VInt 1

/-- C3: an effect on a bounded numeric fluent whose computed post-effect
value falls below the lower bound (or above the upper bound) makes the
event inapplicable and `apply` returns the no-state sentinel rather than
raising; concretely with `counter : int[0, +inf)` and value 1 a decrement
is applicable (new value 0) and a second decrement from 0 is not
(`apply` returns no state). -/
theorem boundedType_inapplicability
    (prob : Problem) (s : State) (conds : List Cond) (f : FluentId)
    (l : Int) (ub : Option Int) (c : Int)
    (prob2 : Problem) (s2 : State) (conds2 : List Cond) (f2 : FluentId)
    (lb2 : Option Int) (u : Int) (c2 : Int)
    (hb : prob.fluentType f = FType.int (some l) ub) (hv : c < l)
    (hb2 : prob2.fluentType f2 = FType.int lb2 (some u)) (hv2 : u < c2) :
    (isApplicable prob
        ⟨conds, [⟨f, .econst (.VInt c), .ctrue, .ASSIGN⟩], none⟩ s = .ok false ∧
      apply prob
        ⟨conds, [⟨f, .econst (.VInt c), .ctrue, .ASSIGN⟩], none⟩ s = .ok none) ∧
    (isApplicable prob2
        ⟨conds2, [⟨f2, .econst (.VInt c2), .ctrue, .ASSIGN⟩], none⟩ s2 = .ok false ∧
      apply prob2
        ⟨conds2, [⟨f2, .econst (.VInt c2), .ctrue, .ASSIGN⟩], none⟩ s2 = .ok none) ∧
    isApplicable probC3 decEv sCnt1 = .ok true ∧
    apply probC3 decEv sCnt1 = .ok (some (makeChild sCnt1 [(0, Value.VInt 0)])) ∧
    isApplicable probC3 decEv (makeChild sCnt1 [(0, Value.VInt 0)]) = .ok false ∧
    apply probC3 decEv (makeChild sCnt1 [(0, Value.VInt 0)]) = .ok none := by
  refine ⟨?_, ?_, rfl, rfl, rfl, rfl⟩
  · have hcalc : getUnsatisfiedConditionsCnt prob
        ⟨conds, [⟨f, .econst (.VInt c), .ctrue, .ASSIGN⟩], none⟩ s true
        = (.ok (condLoop s true conds ++ [UCond.lbViolated l f]), 0) := by
      simp [getUnsatisfiedConditionsCnt, boundLoop, evaluateEffect,
        Effect.isConditional, evalExpr, boundsOf, lookupP, addF, intOf, hb, hv]
    exact applyNone_of_unsat _ _ _ _ _ hcalc (isEmpty_append_cons _ _ _)
  · rcases lb2 with _ | l2
    · have hcalc : getUnsatisfiedConditionsCnt prob2
          ⟨conds2, [⟨f2, .econst (.VInt c2), .ctrue, .ASSIGN⟩], none⟩ s2 true
          = (.ok (condLoop s2 true conds2 ++ [UCond.ubViolated f2 u]), 0) := by
        simp [getUnsatisfiedConditionsCnt, boundLoop, evaluateEffect,
          Effect.isConditional, evalExpr, boundsOf, lookupP, addF, intOf, hb2, hv2]
      exact applyNone_of_unsat _ _ _ _ _ hcalc (isEmpty_append_cons _ _ _)
    · by_cases hcl : c2 < l2
      · have hcalc : getUnsatisfiedConditionsCnt prob2
            ⟨conds2, [⟨f2, .econst (.VInt c2), .ctrue, .ASSIGN⟩], none⟩ s2 true
            = (.ok (condLoop s2 true conds2 ++ [UCond.lbViolated l2 f2]), 0) := by
          simp [getUnsatisfiedConditionsCnt, boundLoop, evaluateEffect,
            Effect.isConditional, evalExpr, boundsOf, lookupP, addF, intOf,
            hb2, hcl]
        exact applyNone_of_unsat _ _ _ _ _ hcalc (isEmpty_append_cons _ _ _)
      · have hcalc : getUnsatisfiedConditionsCnt prob2
            ⟨conds2, [⟨f2, .econst (.VInt c2), .ctrue, .ASSIGN⟩], none⟩ s2 true
            = (.ok (condLoop s2 true conds2 ++ [UCond.ubViolated f2 u]), 0) := by
          simp [getUnsatisfiedConditionsCnt, boundLoop, evaluateEffect,
            Effect.isConditional, evalExpr, boundsOf, lookupP, addF, intOf,
            hb2, hv2, hcl]
        exact applyNone_of_unsat _ _ _ _ _ hcalc (isEmpty_append_cons _ _ _)

/-- Witness for C3: the lower-bound conjunct at `counter : int[0, +inf)`
with value -1 and the upper-bound conjunct at a fluent of type
`int(-inf, 10]` with value 11. -/
theorem boundedType_inapplicability_witness :
    probC3.fluentType 0 = FType.int (some 0) none ∧ ((-1 : Int) < 0) ∧
    (Problem.fluentType ⟨fun _ => FType.int none (some 10), fun _ => "g"⟩ 0
      = FType.int none (some 10)) ∧ ((10 : Int) < 11) ∧
    (isApplicable probC3
        ⟨[], [⟨0, .econst (.VInt (-1)), .ctrue, .ASSIGN⟩], none⟩ sCnt1 = .ok false ∧
      apply probC3
        ⟨[], [⟨0, .econst (.VInt (-1)), .ctrue, .ASSIGN⟩], none⟩ sCnt1 = .ok none) ∧
    (isApplicable ⟨fun _ => FType.int none (some 10), fun _ => "g"⟩
        ⟨[], [⟨0, .econst (.VInt 11), .ctrue, .ASSIGN⟩], none⟩ sCnt1 = .ok false ∧
      apply ⟨fun _ => FType.int none (some 10), fun _ => "g"⟩
        ⟨[], [⟨0, .econst (.VInt 11), .ctrue, .ASSIGN⟩], none⟩ sCnt1 = .ok none) := by
  have h := boundedType_inapplicability probC3 sCnt1 [] 0 0 none (-1)
    ⟨fun _ => FType.int none (some 10), fun _ => "g"⟩ sCnt1 [] 0 none 10 11
    rfl (by decide) rfl (by decide)
  exact ⟨rfl, by decide, rfl, by decide, h.1, h.2.1⟩

/-- Problem whose fluent 0 has the bounded type `int[0, 10]`. -/
def probC5 : Problem := ⟨fun _ => FType.int (some 0) (some 10), fun _ => "g"⟩

/-- Event carrying only a simulated effect on the bounded fluent 0. -/
def evC5 : Event := ⟨[], [], some ⟨[0], fun _ => [.VInt 1]⟩⟩

/-- State with fluent 0 at value 0. -/
def sC5 : State := fun _ => Value.VInt 0

theorem getUnsatCnt_callback (prob : Problem) (ev : Event) (s : State)
    (early : Bool) (se : SimulatedEffect) (uc : List UCond) (n : Nat)
    (hse : ev.simulatedEffect = some se)
    (h : getUnsatisfiedConditionsCnt prob ev s early = (.ok uc, n)) :
    n = if se.fluents.any (fun f => hasBounds (prob.fluentType f)) then 1 else 0 := by
  unfold getUnsatisfiedConditionsCnt at h
  rw [hse] at h
  rcases hb : boundLoop prob s early ev.effects [] [] with er | bs <;> rw [hb] at h
  · simp at h
  · by_cases ht : se.fluents.any (fun f => hasBounds (prob.fluentType f))
    · simp [ht, Prod.ext_iff] at h
      simp [ht]
      omega
    · simp [ht, Prod.ext_iff] at h
      simp [ht]
      omega

theorem applyUnsafeCnt_callback (prob : Problem) (ev : Event) (s : State)
    (se : SimulatedEffect) (r : State) (n2 : Nat)
    (hse : ev.simulatedEffect = some se)
    (h : applyUnsafeCnt prob ev s = (.ok r, n2)) : n2 = 1 := by
  unfold applyUnsafeCnt at h
  split at h
  · simp at h
  · rw [hse] at h
    split at h
    · exact absurd (by assumption : some se = none) (by simp)
    · split at h
      · simp at h
      · simp [Prod.ext_iff] at h
        obtain ⟨-, h2⟩ := h
        omega

/-- C5 (amended): a successful `apply` of an event carrying a simulated
effect invokes the callback once in `apply_unsafe`, plus one extra
invocation during the applicability check exactly when some fluent of the
simulated effect has a bounded numeric type — so twice in that case and
once otherwise, never with any further retry or re-sampling. -/
theorem simulatedCallback_invocationCount (prob : Problem) (ev : Event)
    (s : State) (se : SimulatedEffect) (st : State)
    (hse : ev.simulatedEffect = some se)
    (h : apply prob ev s = .ok (some st)) :
    (applyCnt prob ev s).2 =
      (if se.fluents.any (fun f => hasBounds (prob.fluentType f)) then 1 else 0) + 1 := by
  unfold apply at h
  unfold applyCnt at h ⊢
  rcases h1 : getUnsatisfiedConditionsCnt prob ev s true with ⟨r1, n1⟩
  rw [h1] at h
  rcases r1 with er | uc
  · simp at h
  · by_cases hu : uc.isEmpty
    · rcases h2 : applyUnsafeCnt prob ev s with ⟨r2, n2⟩
      rw [h2] at h
      rcases r2 with er2 | st2
      · simp [hu] at h
      · have hn1 := getUnsatCnt_callback prob ev s true se uc n1 hse h1
        have hn2 := applyUnsafeCnt_callback prob ev s se st2 n2 hse h2
        simp [hu]
        rw [hn1, hn2]
        simp [List.any_eq_true]
    · simp [hu] at h

/-- Counterexample for C5: on a simulated effect over a bounded fluent,
one `apply` invokes the callback twice (once during the applicability
check and once in `apply_unsafe`), not exactly once. -/
theorem simulatedCallback_calledTwice_counterexample :
    (applyCnt probC5 evC5 sC5).2 ≠ 1 ∧
    (applyCnt probC5 evC5 sC5).2 = 2 ∧
    (applyCnt probC5 evC5 sC5).1 = .ok (some (makeChild sC5 [(0, Value.VInt 1)])) :=
  ⟨by decide, rfl, rfl⟩

/-- Witness for C5 (amended) at the bounded-fluent event `evC5`. -/
theorem simulatedCallback_invocationCount_witness :
    evC5.simulatedEffect = some ⟨[0], fun _ => [.VInt 1]⟩ ∧
    apply probC5 evC5 sC5 = .ok (some (makeChild sC5 [(0, Value.VInt 1)])) ∧
    (applyCnt probC5 evC5 sC5).2 =
      (if ([0] : List FluentId).any (fun f => hasBounds (probC5.fluentType f))
        then 1 else 0) + 1 :=
  ⟨rfl, rfl,
   simulatedCallback_invocationCount probC5 evC5 sC5 ⟨[0], fun _ => [.VInt 1]⟩
     (makeChild sC5 [(0, Value.VInt 1)]) rfl rfl⟩

/-- The probabilistic effect of the C6 counterexample: it would set
fluent 0 to `True`. -/
def rockProbEffect : ProbEffect := ⟨[0], fun _ => [.VBool true]⟩

/-- A grounded `ProbabilisticAction` with no ordinary effects and one
probabilistic effect. -/
def probAct6 : GroundedAction := ⟨[], [], none, [rockProbEffect]⟩

/-- Simulator whose only action 0 grounds to `probAct6`. -/
def sim6 : Simulator := ⟨[0], fun _ _ => some probAct6⟩

/-- Problem with boolean fluent 0. -/
def probC6 : Problem := ⟨fun _ => FType.bool, fun _ => "bf"⟩

/-- State with fluent 0 false. -/
def sC6 : State := fun _ => Value.VBool false

/-- Counterexample for C6: the event derived for a `ProbabilisticAction`
carries no simulated or probabilistic effect, and applying it leaves
fluent 0 at `False` even though the probabilistic effect's function would
return `True` for it — the function's values are never merged (it is never
invoked: the event offers no call site for it). -/
theorem probabilisticEffects_dropped_counterexample :
    (getEvents sim6 emptyCache 0 []).map Prod.fst = .ok [⟨[], [], none⟩] ∧
    apply probC6 ⟨[], [], none⟩ sC6 = .ok (some (makeChild sC6 [])) ∧
    makeChild sC6 [] 0 = Value.VBool false ∧
    rockProbEffect.function sC6 = [Value.VBool true] ∧
    Value.VBool false ≠ Value.VBool true :=
  ⟨rfl, rfl, rfl, rfl, by decide⟩

/-- C6 (amended): the event the simulator derives from a grounded
(probabilistic) action contains exactly its preconditions, effects and
simulated effect — the probabilistic effects are dropped and take no part
in `apply`. -/
theorem probabilisticEffects_not_in_event (c : SimCache) (a : ActionId)
    (p : List Value) (ga : GroundedAction)
    (h : lookupK c.events (a, p) = none) :
    (getOrCreateEvents c a p (some ga)).1
      = [⟨ga.preconditions, ga.effects, ga.simulatedEffect⟩] := by
  unfold getOrCreateEvents
  rw [h]

/-- Witness for C6 (amended) at the fresh cache and `probAct6`. -/
theorem probabilisticEffects_not_in_event_witness :
    lookupK emptyCache.events (0, ([] : List Value)) = none ∧
    (getOrCreateEvents emptyCache 0 [] (some probAct6)).1
      = [⟨probAct6.preconditions, probAct6.effects, probAct6.simulatedEffect⟩] :=
  ⟨rfl, probabilisticEffects_not_in_event emptyCache 0 [] probAct6 rfl⟩

/-- C7: each `add_effect`/`add_increase_effect` call type-checks the value
against the fluent's type, rejects increase on non-numeric fluents with a
type error, and immediately runs the conflict check against the effects
already added, returning an error before the inconsistent effect is stored;
in particular an unconditional ASSIGN plus an unconditional
INCREASE on the same fluent is a construction-time error in either order. -/
theorem builder_failFast_checks
    (prob : Problem) (a : InstantaneousAction) (f : FluentId) (i : Int)
    (b : Bool) (cnd : Cond)
    (prob2 : Problem) (f2 : FluentId) (c d : Int)
    (hft : prob.fluentType f = FType.bool)
    (hft2 : prob2.fluentType f2 = FType.int none none) :
    add_effect prob a f (.econst (.VInt i)) cnd
      = .error (.typeError "InstantaneousAction effect has an incompatible value type.") ∧
    add_increase_effect prob a f (.econst (.VBool b)) cnd
      = .error (.typeError "Increase effects can be created only on numeric types!") ∧
    (add_effect prob2 emptyAction f2 (.econst (.VInt c)) .ctrue).bind
        (fun a1 => add_increase_effect prob2 a1 f2 (.econst (.VInt d)) .ctrue)
      = .error .incDecVsAssigned ∧
    (add_increase_effect prob2 emptyAction f2 (.econst (.VInt c)) .ctrue).bind
        (fun a1 => add_effect prob2 a1 f2 (.econst (.VInt d)) .ctrue)
      = .error .assignVsIncDec := by
  refine ⟨?_, ?_, ?_, ?_⟩ <;>
    simp [add_effect, add_increase_effect, addEffectInstance,
      check_conflicting_effects, exprType, isCompatible, emptyAction,
      Effect.isConditional, lookupP, setP, addF, inSimFluents,
      Except.bind, hft, hft2]

/-- Witness for C7 at the boolean fluent of `probC1` and the unbounded
integer fluent 3 of `probC2`. -/
theorem builder_failFast_checks_witness :
    probC1.fluentType 0 = FType.bool ∧
    probC2.fluentType 3 = FType.int none none ∧
    (add_effect probC1 emptyAction 0 (.econst (.VInt 7)) .ctrue
      = .error (.typeError "InstantaneousAction effect has an incompatible value type.") ∧
    add_increase_effect probC1 emptyAction 0 (.econst (.VBool true)) .ctrue
      = .error (.typeError "Increase effects can be created only on numeric types!") ∧
    (add_effect probC2 emptyAction 3 (.econst (.VInt 5)) .ctrue).bind
        (fun a1 => add_increase_effect probC2 a1 3 (.econst (.VInt 5)) .ctrue)
      = .error .incDecVsAssigned ∧
    (add_increase_effect probC2 emptyAction 3 (.econst (.VInt 5)) .ctrue).bind
        (fun a1 => add_effect probC2 a1 3 (.econst (.VInt 5)) .ctrue)
      = .error .assignVsIncDec) :=
  ⟨rfl, rfl,
   builder_failFast_checks probC1 emptyAction 0 7 true .ctrue probC2 3 5 5 rfl rfl⟩

/-- C8: for an action of the problem, a second `get_events` call with the
same parameters returns the same event list and leaves the caches (hence
the grounding-computation counter) unchanged; the two calls together
perform at most one grounding computation, and a `None` answer from the
grounder yields the empty event list. -/
theorem groundAction_fst (sim : Simulator) (c : SimCache) (a : ActionId)
    (p : List Value) : (groundAction sim c a p).1 = sim.ground a p := by
  unfold groundAction
  by_cases hk : (a, p) ∈ c.groundedKeys <;> simp [hk]

theorem groundAction_events (sim : Simulator) (c : SimCache) (a : ActionId)
    (p : List Value) : ((groundAction sim c a p).2).events = c.events := by
  unfold groundAction
  by_cases hk : (a, p) ∈ c.groundedKeys <;> simp [hk]

theorem groundAction_keys (sim : Simulator) (c : SimCache) (a : ActionId)
    (p : List Value) : (a, p) ∈ ((groundAction sim c a p).2).groundedKeys := by
  unfold groundAction
  by_cases hk : (a, p) ∈ c.groundedKeys <;> simp [hk]

theorem groundAction_calls (sim : Simulator) (c : SimCache) (a : ActionId)
    (p : List Value) :
    ((groundAction sim c a p).2).groundCalls ≤ c.groundCalls + 1 := by
  unfold groundAction
  by_cases hk : (a, p) ∈ c.groundedKeys <;> simp [hk]

theorem groundAction_mem (sim : Simulator) (c : SimCache) (a : ActionId)
    (p : List Value) (hk : (a, p) ∈ c.groundedKeys) :
    groundAction sim c a p = (sim.ground a p, c) := by
  unfold groundAction
  simp [hk]

theorem getOrCreateEvents_keys (c : SimCache) (a : ActionId) (p : List Value)
    (ga : Option GroundedAction) :
    ((getOrCreateEvents c a p ga).2).groundedKeys = c.groundedKeys := by
  unfold getOrCreateEvents
  rcases he : lookupK c.events (a, p) <;> simp [he]

theorem getOrCreateEvents_calls (c : SimCache) (a : ActionId) (p : List Value)
    (ga : Option GroundedAction) :
    ((getOrCreateEvents c a p ga).2).groundCalls = c.groundCalls := by
  unfold getOrCreateEvents
  rcases he : lookupK c.events (a, p) <;> simp [he]

theorem getOrCreateEvents_lookup (c : SimCache) (a : ActionId) (p : List Value)
    (ga : Option GroundedAction) :
    lookupK ((getOrCreateEvents c a p ga).2).events (a, p)
      = some (getOrCreateEvents c a p ga).1 := by
  unfold getOrCreateEvents
  rcases he : lookupK c.events (a, p) <;> simp [he, lookupK]

theorem getOrCreateEvents_vacuous (c : SimCache) (a : ActionId) (p : List Value)
    (hn : lookupK c.events (a, p) = none) :
    (getOrCreateEvents c a p none).1 = [] := by
  unfold getOrCreateEvents
  simp [hn]

theorem getEvents_eq (sim : Simulator) (c : SimCache) (a : ActionId)
    (p : List Value) (ha : a ∈ sim.actions) :
    getEvents sim c a p
      = .ok (getOrCreateEvents (groundAction sim c a p).2 a p (sim.ground a p)) := by
  unfold getEvents
  rw [if_neg (by simp [ha])]
  simp only [groundAction_fst]

/-- C8: for an action of the problem, a second `get_events` call with the
same parameters returns the same event list and leaves the caches (hence
the grounding-computation counter) unchanged; the two calls together
perform at most one grounding computation, and a `None` answer from the
grounder (on a fresh key) yields the empty event list. -/
theorem getEvents_memoized (sim : Simulator) (c : SimCache) (a : ActionId)
    (p : List Value) (l1 : List Event) (c1 : SimCache)
    (ha : a ∈ sim.actions)
    (h1 : getEvents sim c a p = .ok (l1, c1)) :
    getEvents sim c1 a p = .ok (l1, c1) ∧
    c1.groundCalls ≤ c.groundCalls + 1 ∧
    (sim.ground a p = none → lookupK c.events (a, p) = none → l1 = []) := by
  have he1 := getEvents_eq sim c a p ha
  rw [h1] at he1
  have hp := Except.ok.inj he1
  have hl := congrArg Prod.fst hp
  have hc := congrArg Prod.snd hp
  simp only at hl hc
  refine ⟨?_, ?_, ?_⟩
  · have hmem : (a, p) ∈ c1.groundedKeys := by
      rw [hc, getOrCreateEvents_keys]
      exact groundAction_keys sim c a p
    have h2 := getEvents_eq sim c1 a p ha
    rw [groundAction_mem sim c1 a p hmem] at h2
    have hlk : lookupK c1.events (a, p) = some l1 := by
      rw [hc, hl]
      exact getOrCreateEvents_lookup _ _ _ _
    have h3 : getOrCreateEvents c1 a p (sim.ground a p) = (l1, c1) := by
      unfold getOrCreateEvents
      rw [hlk]
    rw [h2, h3]
  · have : c1.groundCalls = ((groundAction sim c a p).2).groundCalls := by
      rw [hc, getOrCreateEvents_calls]
    rw [this]
    exact groundAction_calls sim c a p
  · intro hg hnone
    rw [hl, hg]
    refine getOrCreateEvents_vacuous _ _ _ ?_
    rw [groundAction_events]
    exact hnone

/-- Witness for C8 at a fresh cache with a grounder that answers `None`
for action 0 (so the event list is empty and one grounding is counted). -/
theorem getEvents_memoized_witness :
    (0 ∈ (Simulator.actions ⟨[0], fun _ _ => none⟩)) ∧
    (getEvents ⟨[0], fun _ _ => none⟩ emptyCache 0 []
      = .ok ([], ⟨[((0, []), [])], [(0, [])], 1⟩)) ∧
    (getEvents ⟨[0], fun _ _ => none⟩ ⟨[((0, []), [])], [(0, [])], 1⟩ 0 []
      = .ok ([], ⟨[((0, []), [])], [(0, [])], 1⟩) ∧
    SimCache.groundCalls ⟨[((0, []), [])], [(0, [])], 1⟩ ≤ emptyCache.groundCalls + 1 ∧
    ((Simulator.ground ⟨[0], fun _ _ => none⟩) 0 [] = none →
      lookupK emptyCache.events (0, []) = none → ([] : List Event) = [])) :=
  ⟨by decide, rfl,
   getEvents_memoized ⟨[0], fun _ _ => none⟩ emptyCache 0 [] []
     ⟨[((0, []), [])], [(0, [])], 1⟩ (by decide) rfl⟩

end UPSim
